import Mathlib

/-!
Verification development for the OAuth 2.0 Authorization-Code-with-PKCE client
in `crates/mcp-client/src/oauth.rs`.

The Rust source is shallowly embedded: pure computations become Lean functions,
HTTP interactions are abstracted as oracles mapping a request to the response
the network would produce, and the callback listener is modelled as a pure
handler over an explicit slot state (the mutex serialises concurrent requests,
so a sequential list of requests is the faithful model of the handler
executions).  Machine integers are `Nat` with explicit reduction modulo
`2 ^ 32` where the source relies on 32-bit wrap-around (SHA-256).
-/

namespace Oauth2

/-- Minimal JSON value model, mirroring the shape of `serde_json::Value` as the
source uses it: object field lookup and string extraction. -/
inductive Json where
  | null : Json
  | bool (b : Bool) : Json
  | num (n : Int) : Json
  | str (s : String) : Json
  | arr (xs : List Json) : Json
  | obj (fields : List (String × Json)) : Json

/-- `Value::get(key)` on an object: first field with the given name, `none` on
non-objects, as in `serde_json`. -/
def Json.get (j : Json) (key : String) : Option Json :=
  match j with
  | .obj fields => (fields.find? (fun f => f.1 == key)).map Prod.snd
  | _ => none

/-- `Value::as_str`: the payload of a string value, `none` otherwise. -/
def Json.asStr (j : Json) : Option String :=
  match j with
  | .str s => some s
  | _ => none

/-- `reqwest::StatusCode::is_success`: status in `200 ..= 299`. -/
def isSuccessStatus (status : Nat) : Bool :=
  200 ≤ status && status ≤ 299

/-- The discovered endpoint metadata (struct `OidcEndpoints` in the source). -/
structure OidcEndpoints where
  authorization_endpoint : String
  token_endpoint : String
  registration_endpoint : Option String
deriving DecidableEq, Repr

/-- Token-exchange result (struct `TokenData` in the source). -/
structure TokenData where
  access_token : String
  refresh_token : Option String
deriving DecidableEq, Repr

/-- `parse_oauth_config`: requires string fields `authorization_endpoint` and
`token_endpoint`; `registration_endpoint` is optional.  The error strings are
the anyhow messages of the source. -/
def parse_oauth_config (oidc_config : Json) : Except String OidcEndpoints := do
  let some authorization_endpoint := (oidc_config.get "authorization_endpoint").bind Json.asStr
    | .error "authorization_endpoint not found in OAuth configuration"
  let some token_endpoint := (oidc_config.get "token_endpoint").bind Json.asStr
    | .error "token_endpoint not found in OAuth configuration"
  let registration_endpoint := (oidc_config.get "registration_endpoint").bind Json.asStr
  .ok { authorization_endpoint, token_endpoint, registration_endpoint }

/-- Outcome of one discovery HTTP GET, as the source observes it: a transport
failure from `reqwest`, or a response with a status code and a body that either
parses as JSON or fails with a decode error message. -/
inductive DiscResp where
  | transportErr (msg : String)
  | resp (status : Nat) (body : Except String Json)

/-- Discovery failure: either the last recorded underlying error (transport,
JSON decode, or invalid metadata), or the fallback message listing every
candidate path when no underlying error was recorded
(`last_error.unwrap_or_else` in the source). -/
inductive DiscError where
  | underlying (msg : String)
  | noDiscoveryEndpoint (triedPaths : List String)
deriving DecidableEq, Repr

/-- The attempted-paths list a `DiscError` carries, if any. -/
def DiscError.attemptedPaths : DiscError → Option (List String)
  | .underlying _ => none
  | .noDiscoveryEndpoint ps => some ps

/-- The underlying-cause message a `DiscError` carries, if any. -/
def DiscError.lastCause : DiscError → Option String
  | .underlying m => some m
  | .noDiscoveryEndpoint _ => none

/-- The candidate discovery paths in the order the source builds them: the
custom path first when configured, then the four fixed well-known paths. -/
def discoveryPaths (custom : Option String) : List String :=
  (match custom with
    | some c => [c]
    | none => []) ++
  ["/.well-known/oauth-authorization-server",
   "/.well-known/openid_configuration",
   "/oauth/.well-known/oauth-authorization-server",
   "/.well-known/oauth_authorization_server"]

/-- The loop body of `get_oauth_endpoints`, one iteration per candidate path:
a transport error, a JSON decode failure, or invalid metadata on a 2xx response
records the error and moves on; a non-2xx response moves on WITHOUT updating
`last_error`; a 2xx response with valid metadata returns immediately.  The
second component of the result is the list of paths actually probed, in order.
`Url::join` is modelled as total: for the well-known relative paths against an
http(s) base it does not fail. -/
def discoverGo (oracle : String → DiscResp) (allPaths : List String) :
    List String → Option String → List String →
    Except DiscError OidcEndpoints × List String
  | [], lastErr, probed =>
    (.error (match lastErr with
      | some e => .underlying e
      | none => .noDiscoveryEndpoint allPaths), probed.reverse)
  | p :: rest, lastErr, probed =>
    match oracle p with
    | .transportErr e => discoverGo oracle allPaths rest (some e) (p :: probed)
    | .resp status body =>
      if isSuccessStatus status then
        match body with
        | .error je => discoverGo oracle allPaths rest (some je) (p :: probed)
        | .ok j =>
          match parse_oauth_config j with
          | .ok endpoints => (.ok endpoints, (p :: probed).reverse)
          | .error e => discoverGo oracle allPaths rest (some e) (p :: probed)
      else discoverGo oracle allPaths rest lastErr (p :: probed)

/-- `get_oauth_endpoints`: try each candidate path sequentially, returning at
the first success; also returns the list of probed paths. -/
def get_oauth_endpoints (oracle : String → DiscResp) (custom : Option String) :
    Except DiscError OidcEndpoints × List String :=
  discoverGo oracle (discoveryPaths custom) (discoveryPaths custom) none []

/-- Whether a candidate path yields a usable result: a 2xx response whose body
parses as JSON holding valid endpoint metadata. -/
def candidateOK (oracle : String → DiscResp) (p : String) : Option OidcEndpoints :=
  match oracle p with
  | .resp status (.ok j) =>
    if isSuccessStatus status then
      match parse_oauth_config j with
      | .ok endpoints => some endpoints
      | .error _ => none
    else none
  | _ => none

/-- The error a candidate records into `last_error`, if any: transport errors,
JSON decode errors on 2xx, and invalid-metadata errors on 2xx.  Non-2xx
responses record nothing. -/
def recordedErr (oracle : String → DiscResp) (p : String) : Option String :=
  match oracle p with
  | .transportErr e => some e
  | .resp status body =>
    if isSuccessStatus status then
      match body with
      | .error je => some je
      | .ok j =>
        match parse_oauth_config j with
        | .ok _ => none
        | .error e => some e
    else none

/-- The value of `last_error` after the whole loop has run over `ps`. -/
def lastErrOf (oracle : String → DiscResp) (ps : List String) : Option String :=
  ps.foldl (fun acc p =>
    match recordedErr oracle p with
    | some e => some e
    | none => acc) none

/-! ### URL model

The source parses URLs with the `url` crate (WHATWG URL standard).  The model
below covers the fragment of that behaviour the OAuth client exercises:
`scheme://host[:port][/path][?query][#fragment]` URLs with the special web
schemes `http` and `https`.  Documented crate behaviour that matters here and
is reproduced faithfully: the scheme and (domain) host are lower-cased during
parsing; a port equal to the default port of the scheme (80 for http, 443 for
https) is dropped, so `Url::port` returns `none` for it; `Url::path` of a URL
with a special scheme and a host always starts with a slash, and is the single
character slash when the input has no path.  Userinfo, IPv6 host brackets and
dot-segment path normalisation are outside the model: inputs using them are
rejected rather than mis-parsed. -/

/-- ASCII lower-casing of one character, the fragment of Rust
`str::to_lowercase` relevant to scheme and host characters. -/
def lowerChar (c : Char) : Char :=
  if 65 ≤ c.toNat ∧ c.toNat ≤ 90 then Char.ofNat (c.toNat + 32) else c

/-- ASCII lower-casing of a string. -/
def toLowerStr (s : String) : String :=
  String.mk (s.toList.map lowerChar)

/-- ASCII whitespace test, the fragment of Rust `str::trim` behaviour the
model needs. -/
def isWs (c : Char) : Bool :=
  c = ' ' ∨ c = '\t' ∨ c = '\n' ∨ c = '\r'

/-- Drop leading whitespace characters. -/
def dropLeadingWs : List Char → List Char
  | [] => []
  | c :: rest => if isWs c then dropLeadingWs rest else c :: rest

/-- `str::trim`: remove leading and trailing whitespace. -/
def trimStr (s : String) : String :=
  String.mk ((dropLeadingWs (dropLeadingWs s.toList.reverse).reverse))

/-- Result of `Url::parse` in the model.  `port` is what `Url::port` returns
(explicit port with the scheme default normalised away); `rawPort` additionally
remembers the explicit port as written in the input, which the crate itself
does not expose — it exists so that statements about the original URL text can
be made. -/
structure ParsedUrl where
  scheme : String
  host : String
  rawPort : Option Nat
  port : Option Nat
  path : String
deriving DecidableEq, Repr

/-- Scan the scheme: characters up to the first colon, which must be followed
by two slashes.  Returns the scheme characters and the remainder after the
slashes. -/
def splitScheme : List Char → List Char → Option (List Char × List Char)
  | [], _ => none
  | ':' :: rest, acc =>
    match rest with
    | '/' :: '/' :: r => some (acc.reverse, r)
    | _ => none
  | c :: rest, acc => splitScheme rest (c :: acc)

/-- Split the authority from the remainder: authority characters run until the
first slash, question mark or hash. -/
def takeAuthority : List Char → List Char × List Char
  | [] => ([], [])
  | c :: rest =>
    if c = '/' ∨ c = '?' ∨ c = '#' then ([], c :: rest)
    else
      let (a, r) := takeAuthority rest
      (c :: a, r)

/-- Decimal digits to a number; `none` when a non-digit appears. -/
def digitsToNat : List Char → Option Nat → Option Nat
  | [], acc => acc
  | c :: rest, acc =>
    if 48 ≤ c.toNat ∧ c.toNat ≤ 57 then
      digitsToNat rest (some ((acc.getD 0) * 10 + (c.toNat - 48)))
    else none

/-- Split the authority at the first colon into host characters and the
explicit port.  An empty port after the colon counts as no port, as in the URL
standard; a non-numeric or out-of-range port fails the parse. -/
def splitHostPort : List Char → List Char → Option (List Char × Option Nat)
  | [], acc => some (acc.reverse, none)
  | ':' :: rest, acc =>
    if rest = [] then some (acc.reverse, none)
    else
      match digitsToNat rest none with
      | some n => if n < 65536 then some (acc.reverse, some n) else none
      | none => none
  | c :: rest, acc => splitHostPort rest (c :: acc)

/-- Path characters: from the remainder up to the first question mark or
hash. -/
def takePath : List Char → List Char
  | [] => []
  | c :: rest => if c = '?' ∨ c = '#' then [] else c :: takePath rest

/-- `Url::parse` on the modelled fragment (see the section comment). -/
def parseUrl (s : String) : Option ParsedUrl := do
  let (schemeCs, rest) ← splitScheme s.toList []
  let scheme := toLowerStr (String.mk schemeCs)
  guard (scheme = "http" ∨ scheme = "https")
  let (auth, rest2) := takeAuthority rest
  guard (¬ auth.contains '@' ∧ ¬ auth.contains '[')
  let (hostCs, rawPort) ← splitHostPort auth []
  guard (hostCs ≠ [])
  let host := toLowerStr (String.mk hostCs)
  let defaultPort := if scheme = "http" then 80 else 443
  let port := match rawPort with
    | some p => if p = defaultPort then none else some p
    | none => none
  let path := match rest2 with
    | '/' :: _ => String.mk (takePath rest2)
    | _ => "/"
  pure { scheme, host, rawPort, port, path }

/-! ### ServiceConfig (Resource Resolver) -/

/-- OAuth configuration for a service (struct `ServiceConfig`). -/
structure ServiceConfig where
  oauth_host : String
  redirect_uri : String
  client_name : String
  client_uri : String
  discovery_path : Option String
deriving DecidableEq, Repr

/-- `ServiceConfig::from_mcp_endpoint`: parse the target URL (trimmed), fail
when it does not parse or has no host, and build `oauth_host` as
`scheme://host[:port]` with the remaining fields fixed. -/
def ServiceConfig.from_mcp_endpoint (mcp_url : String) : Option ServiceConfig :=
  (parseUrl (trimStr mcp_url)).map fun u =>
    { oauth_host := u.scheme ++ "://" ++ u.host ++
        (match u.port with
          | some p => ":" ++ Nat.repr p
          | none => "")
      redirect_uri := "http://localhost:8020"
      client_name := "Goose MCP Client"
      client_uri := "https://github.com/block/goose"
      discovery_path := none }

/-- `ServiceConfig::get_canonical_resource_uri`: parse the URL again (trimmed),
lower-case scheme and host, push the port when `Url::port` yields one, push
the path when it is non-empty and not the single slash.  The `self` receiver
of the source method is unused there and omitted here. -/
def get_canonical_resource_uri (mcp_url : String) : Option String :=
  match parseUrl (trimStr mcp_url) with
  | none => none
  | some u =>
    let canonical := toLowerStr u.scheme ++ "://" ++ toLowerStr u.host
    let canonical := match u.port with
      | some p => canonical ++ ":" ++ Nat.repr p
      | none => canonical
    let path := u.path
    some (if path ≠ "" ∧ path ≠ "/" then canonical ++ path else canonical)

/-- The canonical resource URI as the spec words it, written over the parsed
record: the lower-cased origin, `:port` appended exactly when a port is
present, the path appended exactly when it is non-empty and not just a
slash. -/
def canonicalSpec (u : ParsedUrl) : String :=
  toLowerStr u.scheme ++ "://" ++ toLowerStr u.host ++
    ((u.port.map fun p => ":" ++ Nat.repr p).getD "") ++
    (if u.path ≠ "" ∧ u.path ≠ "/" then u.path else "")

/-- The socket address `OAuthFlow::execute` binds the callback listener to:
the fixed loopback IP `127.0.0.1` with the parsed redirect URL port,
defaulting to `8020` (`redirect_url.port().unwrap_or(8020)`). -/
def callbackBindAddr (redirect_url : String) : Option ((Nat × Nat × Nat × Nat) × Nat) :=
  (parseUrl redirect_url).map fun u => ((127, 0, 0, 1), u.port.getD 8020)

/-! ### SHA-256 (the `sha2` crate call `Sha256::digest`)

Bytes are `Nat` below 256, 32-bit words are `Nat` reduced modulo `2 ^ 32`. -/

/-- Reduce modulo `2 ^ 32`. -/
def w32 (x : Nat) : Nat := x % 4294967296

/-- Right rotation of a 32-bit word. -/
def rotr (n x : Nat) : Nat := w32 ((x >>> n) ||| (x <<< (32 - n)))

/-- SHA-256 big Sigma 0. -/
def bigSigma0 (x : Nat) : Nat := rotr 2 x ^^^ rotr 13 x ^^^ rotr 22 x

/-- SHA-256 big Sigma 1. -/
def bigSigma1 (x : Nat) : Nat := rotr 6 x ^^^ rotr 11 x ^^^ rotr 25 x

/-- SHA-256 small sigma 0. -/
def smallSigma0 (x : Nat) : Nat := rotr 7 x ^^^ rotr 18 x ^^^ (x >>> 3)

/-- SHA-256 small sigma 1. -/
def smallSigma1 (x : Nat) : Nat := rotr 17 x ^^^ rotr 19 x ^^^ (x >>> 10)

/-- SHA-256 choice function. -/
def shaCh (e f g : Nat) : Nat := (e &&& f) ^^^ ((e ^^^ 4294967295) &&& g)

/-- SHA-256 majority function. -/
def shaMaj (a b c : Nat) : Nat := (a &&& b) ^^^ (a &&& c) ^^^ (b &&& c)

/-- The 64 SHA-256 round constants of FIPS 180-4, written in decimal. -/
def shaK : List Nat :=
  [1116352408, 1899447441, 3049323471, 3921009573, 961987163,
   1508970993, 2453635748, 2870763221, 3624381080, 310598401,
   607225278, 1426881987, 1925078388, 2162078206, 2614888103,
   3248222580, 3835390401, 4022224774, 264347078, 604807628,
   770255983, 1249150122, 1555081692, 1996064986, 2554220882,
   2821834349, 2952996808, 3210313671, 3336571891, 3584528711,
   113926993, 338241895, 666307205, 773529912, 1294757372,
   1396182291, 1695183700, 1986661051, 2177026350, 2456956037,
   2730485921, 2820302411, 3259730800, 3345764771, 3516065817,
   3600352804, 4094571909, 275423344, 430227734, 506948616,
   659060556, 883997877, 958139571, 1322822218, 1537002063,
   1747873779, 1955562222, 2024104815, 2227730452, 2361852424,
   2428436474, 2756734187, 3204031479, 3329325298]

/-- The eight 32-bit working variables of the SHA-256 compression function. -/
structure Sha256State where
  a : Nat
  b : Nat
  c : Nat
  d : Nat
  e : Nat
  f : Nat
  g : Nat
  h : Nat

/-- The SHA-256 initial hash value of FIPS 180-4, written in decimal. -/
def shaInit : Sha256State :=
  ⟨1779033703, 3144134277, 1013904242, 2773480762,
   1359893119, 2600822924, 528734635, 1541459225⟩

/-- One SHA-256 round. -/
def shaRound (s : Sha256State) (k w : Nat) : Sha256State :=
  let t1 := w32 (s.h + bigSigma1 s.e + shaCh s.e s.f s.g + k + w)
  let t2 := w32 (bigSigma0 s.a + shaMaj s.a s.b s.c)
  ⟨w32 (t1 + t2), s.a, s.b, s.c, w32 (s.d + t1), s.e, s.f, s.g⟩

/-- Group bytes into big-endian 32-bit words, four bytes at a time. -/
def bytesToWords : List Nat → List Nat
  | b0 :: b1 :: b2 :: b3 :: rest =>
    (b0 * 16777216 + b1 * 65536 + b2 * 256 + b3) :: bytesToWords rest
  | _ => []

/-- Extend the reversed word list by one scheduled word, `count` times. -/
def scheduleGo : Nat → List Nat → List Nat
  | 0, acc => acc.reverse
  | n + 1, acc =>
    let next := w32 (smallSigma1 (acc.getD 1 0) + acc.getD 6 0 +
      smallSigma0 (acc.getD 14 0) + acc.getD 15 0)
    scheduleGo n (next :: acc)

/-- The 64-entry SHA-256 message schedule from the 16 block words. -/
def schedule (w16 : List Nat) : List Nat := scheduleGo 48 w16.reverse

/-- Compress one 64-byte block into the running state. -/
def compress (st : Sha256State) (block : List Nat) : Sha256State :=
  let ws := schedule (bytesToWords block)
  let t := (shaK.zip ws).foldl (fun s kw => shaRound s kw.1 kw.2) st
  ⟨w32 (st.a + t.a), w32 (st.b + t.b), w32 (st.c + t.c), w32 (st.d + t.d),
   w32 (st.e + t.e), w32 (st.f + t.f), w32 (st.g + t.g), w32 (st.h + t.h)⟩

/-- SHA-256 padding: the byte `0x80`, zeros up to 56 modulo 64, then the
bit length as eight big-endian bytes. -/
def padMessage (msg : List Nat) : List Nat :=
  let L := msg.length
  let zeros := (64 - ((L + 9) % 64)) % 64
  let bitLen := 8 * L
  msg ++ [128] ++ List.replicate zeros 0 ++
    [(bitLen >>> 56) % 256, (bitLen >>> 48) % 256, (bitLen >>> 40) % 256,
     (bitLen >>> 32) % 256, (bitLen >>> 24) % 256, (bitLen >>> 16) % 256,
     (bitLen >>> 8) % 256, bitLen % 256]

/-- Cut a padded message into 64-byte blocks; the fuel argument bounds the
number of blocks and is instantiated with the list length. -/
def toBlocksGo : Nat → List Nat → List (List Nat)
  | 0, _ => []
  | _ + 1, [] => []
  | fuel + 1, l => l.take 64 :: toBlocksGo fuel (l.drop 64)

/-- Cut a padded message into 64-byte blocks. -/
def toBlocks (l : List Nat) : List (List Nat) := toBlocksGo l.length l

/-- A 32-bit word as four big-endian bytes. -/
def wordBytes (w : Nat) : List Nat :=
  [(w >>> 24) % 256, (w >>> 16) % 256, (w >>> 8) % 256, w % 256]

/-- `Sha256::digest`: the 32-byte SHA-256 digest of a byte string. -/
def sha256 (msg : List Nat) : List Nat :=
  let final := (toBlocks (padMessage msg)).foldl compress shaInit
  wordBytes final.a ++ wordBytes final.b ++ wordBytes final.c ++
    wordBytes final.d ++ wordBytes final.e ++ wordBytes final.f ++
    wordBytes final.g ++ wordBytes final.h

/-! ### Base64url without padding and UTF-8 -/

/-- The URL-safe base64 alphabet. -/
def b64Alphabet : List Char :=
  "ABCDEFGHIJKLMNOPQRSTUVWXYZabcdefghijklmnopqrstuvwxyz0123456789-_".toList

/-- The alphabet character for a 6-bit value. -/
def b64Ch (n : Nat) : Char := b64Alphabet.getD n 'A'

/-- URL-safe base64 without padding, three input bytes to four output
characters, with the short final group emitting two or three characters and
no padding. -/
def b64Chars : List Nat → List Char
  | [] => []
  | [b1] => [b64Ch (b1 >>> 2), b64Ch ((b1 &&& 3) <<< 4)]
  | [b1, b2] =>
    [b64Ch (b1 >>> 2), b64Ch (((b1 &&& 3) <<< 4) ||| (b2 >>> 4)),
     b64Ch ((b2 &&& 15) <<< 2)]
  | b1 :: b2 :: b3 :: rest =>
    b64Ch (b1 >>> 2) :: b64Ch (((b1 &&& 3) <<< 4) ||| (b2 >>> 4)) ::
    b64Ch (((b2 &&& 15) <<< 2) ||| (b3 >>> 6)) :: b64Ch (b3 &&& 63) ::
    b64Chars rest

/-- `base64::engine::general_purpose::URL_SAFE_NO_PAD.encode`. -/
def b64UrlNoPad (bs : List Nat) : String := String.mk (b64Chars bs)

/-- UTF-8 encoding of one character. -/
def utf8Char (c : Char) : List Nat :=
  let n := c.toNat
  if n < 128 then [n]
  else if n < 2048 then [192 + n / 64, 128 + n % 64]
  else if n < 65536 then [224 + n / 4096, 128 + (n / 64) % 64, 128 + n % 64]
  else [240 + n / 262144, 128 + (n / 4096) % 64, 128 + (n / 64) % 64, 128 + n % 64]

/-- `str::as_bytes`: the UTF-8 bytes of a string. -/
def utf8Bytes (s : String) : List Nat :=
  s.toList.foldr (fun c acc => utf8Char c ++ acc) []

/-- The PKCE challenge computed in `get_authorization_url`:
base64url-no-padding of the SHA-256 digest of the verifier bytes. -/
def pkceChallenge (verifier : String) : String :=
  b64UrlNoPad (sha256 (utf8Bytes verifier))

/-! ### OAuthFlow: authorization URL, token exchange, execute -/

/-- One authorization attempt (struct `OAuthFlow`).  `state` and `verifier`
are produced by `nanoid!(16)` and `nanoid!(64)` in the constructor; the model
carries them as fields so that theorems can quantify over the random draws,
with the generated lengths appearing as hypotheses. -/
structure OAuthFlow where
  endpoints : OidcEndpoints
  client_id : String
  redirect_url : String
  state : String
  verifier : String

/-- The query parameters of `get_authorization_url`, in source order.  The
source serialises them with `serde_urlencoded` onto the authorization
endpoint; the parameter list is the faithful pre-encoding content. -/
def OAuthFlow.get_authorization_url (flow : OAuthFlow) (resource : String) :
    List (String × String) :=
  let challenge := pkceChallenge flow.verifier
  [("response_type", "code"),
   ("client_id", flow.client_id),
   ("redirect_uri", flow.redirect_url),
   ("state", flow.state),
   ("code_challenge", challenge),
   ("code_challenge_method", "S256"),
   ("resource", resource)]

/-- The form parameters `exchange_code_for_token` POSTs, in source order. -/
def OAuthFlow.tokenRequestParams (flow : OAuthFlow) (code resource : String) :
    List (String × String) :=
  [("grant_type", "authorization_code"),
   ("code", code),
   ("redirect_uri", flow.redirect_url),
   ("code_verifier", flow.verifier),
   ("client_id", flow.client_id),
   ("resource", resource)]

/-- An HTTP response as the token exchange observes it: the status code, the
body as text (read on the failure path) and the body as JSON with a possible
decode error (read on the success path). -/
structure HttpResponse where
  status : Nat
  text : String
  json : Except String Json

/-- Failure cases of the token exchange. -/
inductive TokenError where
  | tokenExchangeFailed (body : String)
  | jsonDecode (msg : String)
  | malformedTokenResponse
deriving DecidableEq, Repr

/-- Response handling of `exchange_code_for_token`: a non-2xx response fails
with the body text; a 2xx body that does not decode as JSON fails with the
decode error; a decoded body without a string `access_token` fails as
malformed; otherwise the access token and the optional string `refresh_token`
are returned. -/
def exchange_code_for_token (resp : HttpResponse) : Except TokenError TokenData :=
  if ¬ isSuccessStatus resp.status then
    .error (.tokenExchangeFailed resp.text)
  else
    match resp.json with
    | .error m => .error (.jsonDecode m)
    | .ok j =>
      match (j.get "access_token").bind Json.asStr with
      | none => .error .malformedTokenResponse
      | some tok => .ok ⟨tok, (j.get "refresh_token").bind Json.asStr⟩

/-! ### Callback listener handler -/

/-- The `code` and `state` query parameters of one callback request, as the
source extracts them from the query map. -/
structure CbRequest where
  code : Option String
  state : Option String
deriving DecidableEq, Repr

/-- The HTML page a callback request is answered with. -/
inductive Page where
  | success
  | alreadyCompleted
  | stateMismatch
  | missingParams
deriving DecidableEq, Repr

/-- One execution of the callback route handler.  `slot` is whether the
one-shot sender is still present in the mutex-guarded option; `alive` is
whether the receiving side of the one-shot channel still exists, which decides
whether `send` succeeds once the sender has been taken.  Returns the new slot
state, the code delivered to the orchestrator (if any) and the response
page.  The handler runs under the mutex, so concurrent requests are
serialised; a sequence of handler executions models every interleaving. -/
def handleCallback (expected : String) (alive : Bool) (slot : Bool)
    (r : CbRequest) : Bool × Option String × Page :=
  match r.code, r.state with
  | some c, some rs =>
    if rs = expected then
      if slot then
        if alive then (false, some c, .success)
        else (false, none, .alreadyCompleted)
      else (false, none, .alreadyCompleted)
    else (slot, none, .stateMismatch)
  | _, _ => (slot, none, .missingParams)

/-- Run the handler over a sequence of callback requests, threading the slot
state; returns the final slot state and, per request, the delivered code and
the response page. -/
def runCallbacks (expected : String) (alive : Bool) :
    Bool → List CbRequest → Bool × List (Option String × Page)
  | slot, [] => (slot, [])
  | slot, r :: rest =>
    let step := handleCallback expected alive slot r
    let tail := runCallbacks expected alive step.1 rest
    (tail.1, (step.2.1, step.2.2) :: tail.2)

/-! ### execute: wait with timeout, stop the listener, exchange -/

/-- The timeout on the wait for the authorization code:
`Duration::from_secs(120)` in the source. -/
def authTimeoutSecs : Nat := 120

/-- How the bounded wait for the one-shot channel resolves. -/
inductive WaitOutcome where
  | timedOut
  | code (c : String)

/-- Failure cases of `execute`. -/
inductive ExecError where
  | authorizationTimeout
  | exchange (e : TokenError)
deriving DecidableEq, Repr

/-- Result of `execute` together with whether `server_handle.abort()` was
reached on that path. -/
structure ExecTrace where
  result : Except ExecError TokenData
  listenerStopped : Bool
deriving Repr

/-- The tail of `OAuthFlow::execute` after the listener is spawned: the
timeout on the one-shot receiver propagates its error with the question-mark
operator BEFORE the `server_handle.abort()` line, so on the timeout path the
listener is never stopped; when a code arrives the abort runs and the token
exchange follows, so the listener is stopped on both exchange outcomes. -/
def execute (wait : WaitOutcome) (tokenResp : HttpResponse) : ExecTrace :=
  match wait with
  | .timedOut =>
    { result := .error .authorizationTimeout, listenerStopped := false }
  | .code _ =>
    { result := match exchange_code_for_token tokenResp with
        | .ok td => .ok td
        | .error e => .error (.exchange e),
      listenerStopped := true }

/-! ### Helper lemmas -/

/-- Strings of different lengths are different. -/
theorem ne_of_length_ne {s t : String} (h : s.length ≠ t.length) : s ≠ t :=
  fun he => h (he ▸ rfl)

/-- The SHA-256 digest always has exactly 32 bytes: the final state holds
eight 32-bit words and each contributes four bytes. -/
theorem sha256_length (msg : List Nat) : (sha256 msg).length = 32 := by
  simp [sha256, wordBytes]

/-- Length of the padding-free base64 encoding: four characters for every
three input bytes, plus two or three for a short final group. -/
theorem b64Chars_length (l : List Nat) :
    (b64Chars l).length = (4 * l.length + 2) / 3 := by
  induction l using b64Chars.induct <;> simp [b64Chars, *]
  omega

/-- The PKCE challenge always has 43 characters: the base64url encoding of a
32-byte digest without padding. -/
theorem pkceChallenge_length (v : String) : (pkceChallenge v).length = 43 := by
  show (b64Chars (sha256 (utf8Bytes v))).length = 43
  rw [b64Chars_length, sha256_length]

/-- The challenge computed from a verifier of the generated length is strictly
shorter than the verifier, hence different from it. -/
theorem pkceChallenge_ne_verifier {v : String} (hv : v.length = 64) :
    pkceChallenge v ≠ v :=
  ne_of_length_ne (by rw [pkceChallenge_length, hv]; decide)

/-! ### Claim C1 -/

/-- C1: for every verifier held by an attempt, the code_challenge placed in
the authorization URL equals base64url-without-padding of the SHA-256 digest
of the verifier, the verifier itself appears among the token-exchange request
parameters, and it never appears among the query parameter values of the
authorization URL.  The nanoid lengths of the generated verifier (64) and
state (16) appear as hypotheses, as does distinctness of the verifier from the
three externally supplied strings. -/
theorem c1_pkce_challenge_and_verifier_secrecy (flow : OAuthFlow)
    (code resource : String)
    (hv : flow.verifier.length = 64) (hs : flow.state.length = 16)
    (hcid : flow.client_id ≠ flow.verifier)
    (hred : flow.redirect_url ≠ flow.verifier)
    (hres : resource ≠ flow.verifier) :
    (flow.get_authorization_url resource).lookup "code_challenge" =
      some (b64UrlNoPad (sha256 (utf8Bytes flow.verifier)))
    ∧ ("code_verifier", flow.verifier) ∈ flow.tokenRequestParams code resource
    ∧ flow.verifier ∉ (flow.get_authorization_url resource).map Prod.snd := by
  refine ⟨rfl, by simp [OAuthFlow.tokenRequestParams], ?_⟩
  simp only [OAuthFlow.get_authorization_url, List.map_cons, List.map_nil,
    List.mem_cons, List.not_mem_nil, or_false, not_or]
  refine ⟨?_, ?_, ?_, ?_, ?_, ?_, ?_⟩
  · exact ne_of_length_ne (by rw [hv]; decide)
  · exact fun h => hcid h.symm
  · exact fun h => hred h.symm
  · exact ne_of_length_ne (by rw [hv, hs]; decide)
  · exact fun h => pkceChallenge_ne_verifier hv h.symm
  · exact ne_of_length_ne (by rw [hv]; decide)
  · exact fun h => hres h.symm

/-- Witness for C1 at a concrete flow with a 64-character verifier and a
16-character state. -/
theorem c1_witness :
    (OAuthFlow.get_authorization_url
        ⟨⟨"https://as.example/auth", "https://as.example/token", none⟩,
          "abc123", "http://localhost:8020", "ABCDEFGHIJKLMNOP",
          "0123456789abcdef0123456789abcdef0123456789abcdef0123456789abcdef"⟩
        "https://mcp.example.com").lookup "code_challenge" =
      some (b64UrlNoPad (sha256 (utf8Bytes
        "0123456789abcdef0123456789abcdef0123456789abcdef0123456789abcdef")))
    ∧ ("code_verifier",
        "0123456789abcdef0123456789abcdef0123456789abcdef0123456789abcdef") ∈
        OAuthFlow.tokenRequestParams
          ⟨⟨"https://as.example/auth", "https://as.example/token", none⟩,
            "abc123", "http://localhost:8020", "ABCDEFGHIJKLMNOP",
            "0123456789abcdef0123456789abcdef0123456789abcdef0123456789abcdef"⟩
          "xyz" "https://mcp.example.com"
    ∧ "0123456789abcdef0123456789abcdef0123456789abcdef0123456789abcdef" ∉
        (OAuthFlow.get_authorization_url
          ⟨⟨"https://as.example/auth", "https://as.example/token", none⟩,
            "abc123", "http://localhost:8020", "ABCDEFGHIJKLMNOP",
            "0123456789abcdef0123456789abcdef0123456789abcdef0123456789abcdef"⟩
          "https://mcp.example.com").map Prod.snd :=
  c1_pkce_challenge_and_verifier_secrecy _ "xyz" "https://mcp.example.com"
    (by decide) (by decide) (by decide) (by decide) (by decide)

/-! ### Claims C2 and C3 -/

/-- Once the one-shot slot is consumed, every further correct-state request
with a code is answered with the already-completed page and delivers
nothing. -/
theorem runCallbacks_after_consumption (expected : String) (alive : Bool)
    (rest : List CbRequest)
    (hrest : ∀ q ∈ rest, q.state = some expected ∧ q.code.isSome) :
    runCallbacks expected alive false rest =
      (false, rest.map fun _ => ((none : Option String), Page.alreadyCompleted)) := by
  induction rest with
  | nil => rfl
  | cons q t ih =>
    obtain ⟨hqs, hqc⟩ := hrest q (by simp)
    obtain ⟨cq, hcq⟩ := Option.isSome_iff_exists.mp hqc
    have ht := ih fun r hr => hrest r (by simp [hr])
    simp [runCallbacks, handleCallback, hcq, hqs, ht]

/-- C2: over any sequence of callback requests that each carry the correct
state and a code, exactly the first request delivers its code and receives the
success page; the slot is consumed by it, and every later request receives the
already-completed page with its code discarded. -/
theorem c2_one_shot_delivery (expected : String) (r : CbRequest)
    (rest : List CbRequest) (c : String)
    (hc : r.code = some c) (hs : r.state = some expected)
    (hrest : ∀ q ∈ rest, q.state = some expected ∧ q.code.isSome) :
    runCallbacks expected true true (r :: rest) =
      (false, (some c, Page.success) ::
        rest.map fun _ => ((none : Option String), Page.alreadyCompleted)) := by
  have ht := runCallbacks_after_consumption expected true rest hrest
  simp [runCallbacks, handleCallback, hc, hs, ht]

/-- Witness for C2: two racing correct-state callbacks, only the first
delivers. -/
theorem c2_witness :
    runCallbacks "st16" true true
      [⟨some "abc1", some "st16"⟩, ⟨some "abc2", some "st16"⟩] =
      (false, [(some "abc1", Page.success), (none, Page.alreadyCompleted)]) :=
  c2_one_shot_delivery "st16" ⟨some "abc1", some "st16"⟩
    [⟨some "abc2", some "st16"⟩] "abc1" rfl rfl (by decide)

/-- C3: a callback whose state differs from the expected value delivers
nothing, leaves the slot unchanged and is answered with the security-warning
page; a callback missing the code or the state delivers nothing, leaves the
slot unchanged and is answered with the generic failure page; and after any
such non-delivering request a request with the correct state and code `c2`
still delivers exactly `c2`. -/
theorem c3_state_mismatch_rejection :
    (∀ (expected : String) (alive slot : Bool) (c s2 : String), s2 ≠ expected →
      handleCallback expected alive slot ⟨some c, some s2⟩ =
        (slot, none, Page.stateMismatch))
    ∧ (∀ (expected : String) (alive slot : Bool) (r : CbRequest),
      r.code = none ∨ r.state = none →
      handleCallback expected alive slot r = (slot, none, Page.missingParams))
    ∧ (∀ (expected : String) (bad : CbRequest) (c2 : String),
      bad.code = none ∨ bad.state = none ∨ bad.state ≠ some expected →
      (runCallbacks expected true true [bad, ⟨some c2, some expected⟩]).2.map
        Prod.fst = [none, some c2]) := by
  refine ⟨?_, ?_, ?_⟩
  · intro expected alive slot c s2 hne
    simp [handleCallback, hne]
  · intro expected alive slot r h
    rcases h with h | h
    · rcases hrs : r.state with _ | s2 <;> simp [handleCallback, h, hrs]
    · rcases hrc : r.code with _ | c <;> simp [handleCallback, h, hrc]
  · intro expected bad c2 h
    have hbad : handleCallback expected true true bad = (true, none, Page.stateMismatch)
        ∨ handleCallback expected true true bad = (true, none, Page.missingParams) := by
      rcases hrc : bad.code with _ | c
      · right; simp [handleCallback, hrc]
      · rcases hrs : bad.state with _ | s2
        · right; simp [handleCallback, hrc, hrs]
        · have hne : s2 ≠ expected := by
            rcases h with h | h | h
            · rw [hrc] at h; cases h
            · rw [hrs] at h; cases h
            · rw [hrs] at h; intro he; exact h (by rw [he])
          left; simp [handleCallback, hrc, hrs, hne]
    rcases hbad with hb | hb <;>
      (simp only [runCallbacks, hb]; simp [handleCallback])

/-- Witness for C3: a wrong-state callback is rejected, a parameterless
callback is rejected, and a later correct callback delivers its code. -/
theorem c3_witness :
    handleCallback "st16" true true ⟨some "abc1", some "wrong"⟩ =
      (true, none, Page.stateMismatch)
    ∧ handleCallback "st16" true true ⟨none, none⟩ =
      (true, none, Page.missingParams)
    ∧ (runCallbacks "st16" true true
        [⟨some "abc1", some "wrong"⟩, ⟨some "abc2", some "st16"⟩]).2.map
        Prod.fst = [none, some "abc2"] :=
  ⟨c3_state_mismatch_rejection.1 "st16" true true "abc1" "wrong" (by decide),
   c3_state_mismatch_rejection.2.1 "st16" true true ⟨none, none⟩ (Or.inl rfl),
   c3_state_mismatch_rejection.2.2 "st16" ⟨some "abc1", some "wrong"⟩ "abc2"
     (by decide)⟩

/-! ### Claim C4 -/

/-- Counterexample for C4 as stated: the timeout expiry is an exit path of the
orchestrator on which the callback listener task is NOT stopped — the timeout
error propagates with the question-mark operator before the
`server_handle.abort()` line is reached. -/
theorem c4_counterexample :
    (execute .timedOut ⟨200, "", .ok (Json.obj [])⟩).listenerStopped = false
    ∧ (execute .timedOut ⟨200, "", .ok (Json.obj [])⟩).result =
        .error .authorizationTimeout :=
  ⟨rfl, rfl⟩

/-- C4 (amended): the wait is bounded by 120 seconds and expiry fails the
attempt with the timeout error, but the listener is stopped only on the paths
that receive a code (it is then stopped before the exchange, on both exchange
outcomes); on the timeout path it is never stopped. -/
theorem c4_timeout_and_listener_shutdown :
    authTimeoutSecs = 120
    ∧ (∀ resp : HttpResponse, execute .timedOut resp =
        ⟨.error .authorizationTimeout, false⟩)
    ∧ (∀ (c : String) (resp : HttpResponse),
        (execute (.code c) resp).listenerStopped = true) :=
  ⟨rfl, fun _ => rfl, fun _ _ => rfl⟩

/-! ### Claim C8 -/

/-- Counterexample for C8 as stated: the constructor sets `redirect_uri` to
`http://localhost:8020`, which is not the string `http://127.0.0.1:8020/`. -/
theorem c8_counterexample :
    (ServiceConfig.from_mcp_endpoint "https://example.com/api").map
      ServiceConfig.redirect_uri = some "http://localhost:8020"
    ∧ "http://localhost:8020" ≠ "http://127.0.0.1:8020/" :=
  ⟨rfl, by decide⟩

/-- C8 (amended): the ServiceConfig built by the constructor from any target
URL has its redirect_uri set to the fixed default `http://localhost:8020`
(a host name resolving to loopback, without trailing slash). -/
theorem c8_redirect_uri_default (s : String) (cfg : ServiceConfig)
    (h : ServiceConfig.from_mcp_endpoint s = some cfg) :
    cfg.redirect_uri = "http://localhost:8020" := by
  unfold ServiceConfig.from_mcp_endpoint at h
  cases hp : parseUrl (trimStr s) with
  | none => rw [hp] at h; exact absurd h (by simp)
  | some u =>
    rw [hp] at h
    injection h with h2
    rw [← h2]

/-- Witness for C8 at a concrete target URL. -/
theorem c8_witness :
    ServiceConfig.redirect_uri
      { oauth_host := "https://mcp.example.com"
        redirect_uri := "http://localhost:8020"
        client_name := "Goose MCP Client"
        client_uri := "https://github.com/block/goose"
        discovery_path := none } = "http://localhost:8020" :=
  c8_redirect_uri_default "https://mcp.example.com/api" _ rfl

/-! ### Claim C9 -/

/-- C9: in the code-for-token exchange, a non-2xx response fails with the
token-exchange-failed error carrying the response body; a 2xx response whose
JSON lacks a string access_token fails as malformed; and a 2xx response with a
string access_token succeeds with that token and the optional string
refresh_token. -/
theorem c9_token_exchange_response_handling :
    (∀ resp : HttpResponse, ¬ isSuccessStatus resp.status →
      exchange_code_for_token resp = .error (.tokenExchangeFailed resp.text))
    ∧ (∀ (resp : HttpResponse) (j : Json), isSuccessStatus resp.status →
      resp.json = .ok j → (j.get "access_token").bind Json.asStr = none →
      exchange_code_for_token resp = .error .malformedTokenResponse)
    ∧ (∀ (resp : HttpResponse) (j : Json) (tok : String),
      isSuccessStatus resp.status → resp.json = .ok j →
      (j.get "access_token").bind Json.asStr = some tok →
      exchange_code_for_token resp =
        .ok ⟨tok, (j.get "refresh_token").bind Json.asStr⟩) := by
  refine ⟨?_, ?_, ?_⟩
  · intro resp hfail
    simp [exchange_code_for_token, hfail]
  · intro resp j hok hjson hmiss
    simp [exchange_code_for_token, hok, hjson, hmiss]
  · intro resp j tok hok hjson htok
    simp [exchange_code_for_token, hok, hjson, htok]

/-- Witness for C9: a 400 response, a 2xx response without access_token, and a
2xx response with access_token and refresh_token. -/
theorem c9_witness :
    exchange_code_for_token ⟨400, "bad request", .error "not json"⟩ =
      .error (.tokenExchangeFailed "bad request")
    ∧ exchange_code_for_token ⟨200, "", .ok (Json.obj [])⟩ =
      .error .malformedTokenResponse
    ∧ exchange_code_for_token
        ⟨200, "", .ok (Json.obj
          [("access_token", .str "tok_1"), ("refresh_token", .str "r1")])⟩ =
      .ok ⟨"tok_1", some "r1"⟩ :=
  ⟨c9_token_exchange_response_handling.1 ⟨400, "bad request", .error "not json"⟩
     (by decide),
   c9_token_exchange_response_handling.2.1 ⟨200, "", .ok (Json.obj [])⟩
     (Json.obj []) (by decide) rfl rfl,
   c9_token_exchange_response_handling.2.2
     ⟨200, "", .ok (Json.obj
       [("access_token", .str "tok_1"), ("refresh_token", .str "r1")])⟩
     (Json.obj [("access_token", .str "tok_1"), ("refresh_token", .str "r1")])
     "tok_1" (by decide) rfl rfl⟩

/-! ### Claims C5 and C7 -/

/-- A candidate that does not yield usable metadata makes the discovery loop
move on to the remaining candidates, recording exactly the error
`recordedErr` describes (non-2xx responses record nothing). -/
theorem discoverGo_step_fail (oracle : String → DiscResp) (allPaths : List String)
    (p : String) (l : List String) (lastErr : Option String) (probed : List String)
    (hp : candidateOK oracle p = none) :
    discoverGo oracle allPaths (p :: l) lastErr probed =
      discoverGo oracle allPaths l
        (match recordedErr oracle p with
          | some e => some e
          | none => lastErr) (p :: probed) := by
  unfold candidateOK at hp
  unfold recordedErr
  cases ho : oracle p with
  | transportErr e => simp [discoverGo, ho]
  | resp status body =>
    rw [ho] at hp
    by_cases hst : isSuccessStatus status
    · cases body with
      | error je => simp [discoverGo, ho, hst]
      | ok j =>
        cases hpc : parse_oauth_config j with
        | ok endpoints => simp [hst, hpc] at hp
        | error e => simp [discoverGo, ho, hst, hpc]
    · simp [discoverGo, ho, hst]

/-- A candidate that yields a 2xx response with valid metadata returns that
metadata immediately, with the probe list closed at that candidate. -/
theorem discoverGo_step_success (oracle : String → DiscResp) (allPaths : List String)
    (p : String) (l : List String) (lastErr : Option String) (probed : List String)
    (endpoints : OidcEndpoints)
    (hp : candidateOK oracle p = some endpoints) :
    discoverGo oracle allPaths (p :: l) lastErr probed =
      (.ok endpoints, (p :: probed).reverse) := by
  unfold candidateOK at hp
  cases ho : oracle p with
  | transportErr e => rw [ho] at hp; simp at hp
  | resp status body =>
    rw [ho] at hp
    cases body with
    | error je => simp at hp
    | ok j =>
      by_cases hst : isSuccessStatus status
      · cases hpc : parse_oauth_config j with
        | ok found =>
          simp [hst, hpc] at hp
          subst hp
          simp [discoverGo, ho, hst, hpc]
        | error e => simp [hst, hpc] at hp
      · simp [hst] at hp

/-- The discovery loop over a prefix of failing candidates followed by a
successful one probes exactly the prefix and the success, in order, and
returns the metadata of the first success. -/
theorem discoverGo_first_success (oracle : String → DiscResp) (allPaths : List String)
    (pre : List String) (p : String) (post : List String)
    (endpoints : OidcEndpoints)
    (hpre : ∀ q ∈ pre, candidateOK oracle q = none)
    (hp : candidateOK oracle p = some endpoints) :
    ∀ (lastErr : Option String) (probed : List String),
    discoverGo oracle allPaths (pre ++ p :: post) lastErr probed =
      (.ok endpoints, probed.reverse ++ (pre ++ [p])) := by
  induction pre with
  | nil =>
    intro lastErr probed
    rw [List.nil_append, discoverGo_step_success oracle allPaths p post lastErr probed endpoints hp]
    simp
  | cons q t ih =>
    intro lastErr probed
    rw [List.cons_append,
      discoverGo_step_fail oracle allPaths q (t ++ p :: post) lastErr probed
        (hpre q (by simp)),
      ih (fun r hr => hpre r (by simp [hr])) _ (q :: probed)]
    simp

/-- C5: discovery tries the candidate paths strictly sequentially in the fixed
priority order — the custom path first when configured, then the four
well-known paths — and whenever every earlier candidate fails (non-2xx,
transport failure, undecodable body or missing required metadata field) and a
candidate yields a 2xx response with valid metadata, it returns exactly that
parsed metadata having probed exactly the candidates up to and including the
successful one. -/
theorem c5_discovery_order_and_short_circuit :
    (∀ c : String, discoveryPaths (some c) =
      [c, "/.well-known/oauth-authorization-server",
       "/.well-known/openid_configuration",
       "/oauth/.well-known/oauth-authorization-server",
       "/.well-known/oauth_authorization_server"])
    ∧ discoveryPaths none =
      ["/.well-known/oauth-authorization-server",
       "/.well-known/openid_configuration",
       "/oauth/.well-known/oauth-authorization-server",
       "/.well-known/oauth_authorization_server"]
    ∧ (∀ (oracle : String → DiscResp) (custom : Option String)
        (pre : List String) (p : String) (post : List String)
        (endpoints : OidcEndpoints),
      discoveryPaths custom = pre ++ p :: post →
      (∀ q ∈ pre, candidateOK oracle q = none) →
      candidateOK oracle p = some endpoints →
      get_oauth_endpoints oracle custom = (.ok endpoints, pre ++ [p])) := by
  refine ⟨fun c => rfl, rfl, ?_⟩
  intro oracle custom pre p post endpoints hsplit hpre hp
  unfold get_oauth_endpoints
  rw [hsplit, discoverGo_first_success oracle (pre ++ p :: post) pre p post endpoints hpre hp]
  simp

/-- Witness for C5: the first candidate answers 404, the second answers 2xx
with valid metadata; discovery returns that metadata having probed exactly the
first two paths. -/
theorem c5_witness :
    get_oauth_endpoints
      (fun q =>
        if q = "/.well-known/oauth-authorization-server" then
          .resp 404 (.error "404 page")
        else if q = "/.well-known/openid_configuration" then
          .resp 200 (.ok (Json.obj
            [("authorization_endpoint", .str "https://as.example/authorize"),
             ("token_endpoint", .str "https://as.example/token")]))
        else .transportErr "unreachable")
      none =
      (.ok ⟨"https://as.example/authorize", "https://as.example/token", none⟩,
       ["/.well-known/oauth-authorization-server",
        "/.well-known/openid_configuration"]) :=
  c5_discovery_order_and_short_circuit.2.2
    (fun q =>
      if q = "/.well-known/oauth-authorization-server" then
        .resp 404 (.error "404 page")
      else if q = "/.well-known/openid_configuration" then
        .resp 200 (.ok (Json.obj
          [("authorization_endpoint", .str "https://as.example/authorize"),
           ("token_endpoint", .str "https://as.example/token")]))
      else .transportErr "unreachable")
    none ["/.well-known/oauth-authorization-server"]
    "/.well-known/openid_configuration"
    ["/oauth/.well-known/oauth-authorization-server",
     "/.well-known/oauth_authorization_server"]
    ⟨"https://as.example/authorize", "https://as.example/token", none⟩
    rfl (by decide) rfl

/-- When every candidate fails, the loop ends with the last recorded error if
one exists, the fallback tried-paths error otherwise, in both cases having
probed every candidate. -/
theorem discoverGo_exhausted (oracle : String → DiscResp) (allPaths : List String)
    (ps : List String)
    (h : ∀ p ∈ ps, candidateOK oracle p = none) :
    ∀ (lastErr : Option String) (probed : List String),
    discoverGo oracle allPaths ps lastErr probed =
      (.error (match ps.foldl (fun acc p =>
          match recordedErr oracle p with
          | some e => some e
          | none => acc) lastErr with
        | some e => .underlying e
        | none => .noDiscoveryEndpoint allPaths), probed.reverse ++ ps) := by
  induction ps with
  | nil =>
    intro lastErr probed
    cases lastErr <;> simp [discoverGo]
  | cons q t ih =>
    intro lastErr probed
    rw [discoverGo_step_fail oracle allPaths q t lastErr probed (h q (by simp)),
      ih (fun r hr => h r (by simp [hr]))]
    cases hr : recordedErr oracle q <;> simp [List.foldl_cons, hr]

/-- Counterexample for C7 as stated: when an underlying error was recorded,
the final discovery error is exactly that error and carries no list of
attempted paths. -/
theorem c7_counterexample :
    (get_oauth_endpoints (fun _ => .transportErr "connection refused") none).1 =
      .error (.underlying "connection refused")
    ∧ DiscError.attemptedPaths (.underlying "connection refused") = none :=
  ⟨rfl, rfl⟩

/-- C7 (amended): when every candidate path has been tried without success,
discovery fails with the last recorded underlying error when one exists
(transport failure, JSON decode failure, or invalid metadata on a 2xx
response), and otherwise — when only errors that are not recorded occurred,
such as non-2xx responses — with an error carrying the list of attempted
paths; the error never carries both. -/
theorem c7_exhaustion_error (oracle : String → DiscResp) (custom : Option String)
    (h : ∀ p ∈ discoveryPaths custom, candidateOK oracle p = none) :
    get_oauth_endpoints oracle custom =
      (.error (match lastErrOf oracle (discoveryPaths custom) with
        | some e => .underlying e
        | none => .noDiscoveryEndpoint (discoveryPaths custom)),
       discoveryPaths custom) := by
  unfold get_oauth_endpoints lastErrOf
  rw [discoverGo_exhausted oracle (discoveryPaths custom) (discoveryPaths custom) h]
  simp

/-- Witness for C7: every candidate answers 404, so nothing is recorded into
the last-error slot and the final error carries the attempted paths. -/
theorem c7_witness :
    get_oauth_endpoints (fun _ => .resp 404 (.error "404 page")) none =
      (.error (.noDiscoveryEndpoint
        ["/.well-known/oauth-authorization-server",
         "/.well-known/openid_configuration",
         "/oauth/.well-known/oauth-authorization-server",
         "/.well-known/oauth_authorization_server"]),
       ["/.well-known/oauth-authorization-server",
        "/.well-known/openid_configuration",
        "/oauth/.well-known/oauth-authorization-server",
        "/.well-known/oauth_authorization_server"]) :=
  c7_exhaustion_error (fun _ => .resp 404 (.error "404 page")) none (by decide)

/-! ### Claim C6 -/

/-- Counterexample for C6 as stated: the input carries the explicit port 443,
yet the canonical resource URI omits it, because the URL library normalises a
port equal to the default port of the scheme away and `Url::port` then
returns nothing. -/
theorem c6_counterexample :
    (parseUrl (trimStr "https://example.com:443/a/b")).map ParsedUrl.rawPort =
      some (some 443)
    ∧ get_canonical_resource_uri "https://example.com:443/a/b" =
      some "https://example.com/a/b"
    ∧ "https://example.com/a/b" ≠ "https://example.com:443/a/b" :=
  ⟨rfl, rfl, by decide⟩

/-- C6 (amended): for every parsable URL with a host, the canonical resource
URI lower-cases the scheme and host, appends the port exactly when the parsed
URL retains one — an explicit port equal to the default port of the scheme
(80 for http, 443 for https) is normalised away — and appends the path exactly
when it is non-empty and not just a slash; in particular the two concrete
examples of the claim hold. -/
theorem c6_canonical_resource_uri :
    (∀ (s : String) (u : ParsedUrl), parseUrl (trimStr s) = some u →
      get_canonical_resource_uri s = some (canonicalSpec u))
    ∧ get_canonical_resource_uri "HTTPS://Example.com:8443/a/b/" =
      some "https://example.com:8443/a/b/"
    ∧ get_canonical_resource_uri "https://example.com/" =
      some "https://example.com" := by
  refine ⟨?_, rfl, rfl⟩
  intro s u h
  unfold get_canonical_resource_uri canonicalSpec
  rw [h]
  cases hp : u.port with
  | none =>
    by_cases hpath : u.path ≠ "" ∧ u.path ≠ "/" <;>
      simp [hp, hpath, String.append_empty]
  | some p =>
    by_cases hpath : u.path ≠ "" ∧ u.path ≠ "/" <;>
      simp [hp, hpath, String.append_assoc, String.append_empty]

/-- Witness for C6 at a concrete URL with an explicit non-default port. -/
theorem c6_witness :
    parseUrl (trimStr "https://api.example.com:9000/v1") =
      some ⟨"https", "api.example.com", some 9000, some 9000, "/v1"⟩
    ∧ get_canonical_resource_uri "https://api.example.com:9000/v1" =
      some (canonicalSpec ⟨"https", "api.example.com", some 9000, some 9000, "/v1"⟩) :=
  ⟨rfl, c6_canonical_resource_uri.1 "https://api.example.com:9000/v1" _ rfl⟩

/-! ### Claim C10 -/

/-- Counterexample for C10 as stated: the redirect URL carries the explicit
port 80, yet the listener binds to 8020, because `Url::port` normalises the
default port of the scheme away and `unwrap_or(8020)` then applies. -/
theorem c10_counterexample :
    (parseUrl "http://localhost:80").map ParsedUrl.rawPort = some (some 80)
    ∧ callbackBindAddr "http://localhost:80" = some ((127, 0, 0, 1), 8020)
    ∧ (8020 : Nat) ≠ 80 :=
  ⟨rfl, rfl, by decide⟩

/-- C10 (amended): for every parsable redirect URL, the callback listener
binds to the IP address 127.0.0.1 with the port the parsed URL retains
(default ports being normalised away by parsing), falling back to 8020 when
the parsed URL has none; the host of the redirect URL never influences the
bind address — two parsable URLs with the same parsed port bind
identically. -/
theorem c10_listener_binding :
    (∀ (s : String) (u : ParsedUrl), parseUrl s = some u →
      callbackBindAddr s = some ((127, 0, 0, 1), u.port.getD 8020))
    ∧ (∀ (s t : String) (u v : ParsedUrl), parseUrl s = some u →
      parseUrl t = some v → u.port = v.port →
      callbackBindAddr s = callbackBindAddr t) := by
  constructor
  · intro s u h
    unfold callbackBindAddr
    rw [h]
    rfl
  · intro s t u v hs ht hport
    unfold callbackBindAddr
    rw [hs, ht]
    simp [hport]

/-- Witness for C10: the default redirect URL binds 127.0.0.1 on 8020, and a
redirect URL with a different host but the same port binds identically. -/
theorem c10_witness :
    callbackBindAddr "http://localhost:8020" = some ((127, 0, 0, 1), 8020)
    ∧ callbackBindAddr "http://some.other.host:8020" =
      callbackBindAddr "http://localhost:8020" :=
  ⟨c10_listener_binding.1 "http://localhost:8020"
     ⟨"http", "localhost", some 8020, some 8020, "/"⟩ rfl,
   c10_listener_binding.2 "http://some.other.host:8020" "http://localhost:8020"
     ⟨"http", "some.other.host", some 8020, some 8020, "/"⟩
     ⟨"http", "localhost", some 8020, some 8020, "/"⟩ rfl rfl rfl⟩

end Oauth2
